import Mathlib

/-!
# Verification of the Fluora UDP fragment-reassembly server

Shallow embedding of `FluoraServer.process_request` from
`src/fluoraled/fluora_state.py`, together with the auxiliary Python
semantics it relies on (insertion-ordered `dict`, strict UTF-8 decoding
of `bytes`, and the fallible `json.loads` call, modelled as an abstract
decoder parameter since `json` is an external library).

Python strings are modelled as lists of Unicode code points
(`List Nat`); `bytes` values are lists of byte values (`List Nat`,
each < 256).  The JSON decoder `json.loads` and serialiser `json.dumps`
are taken as parameters `dec : List Nat → Option Json` and
`dumps : Json → List Nat`: `dec s = none` models `json.loads` raising
`json.JSONDecodeError` on the text `s`.
-/

set_option autoImplicit false

namespace Fluora

/-! ## Python `dict` semantics

A CPython `dict` iterates in insertion order; assigning to an existing
key overwrites the value but keeps the key's position.  We model the
dictionary `self.packet_assemble : dict[int, str]` as an
insertion-ordered association list with unique keys. -/

/-- Insertion-ordered association list modelling a Python `dict`
from `int` keys to `str` (code-point list) values. -/
abbrev PyDict := List (Nat × List Nat)

/-- `d[k] = v` on a Python dict: overwrite in place if `k` is present,
otherwise append at the end (insertion order). -/
def dictSet (d : PyDict) (k : Nat) (v : List Nat) : PyDict :=
  if d.any (fun p => p.1 = k) then
    d.map (fun p => if p.1 = k then (k, v) else p)
  else
    d ++ [(k, v)]

/-- `d.values()` of a Python dict, in insertion order. -/
def dictValues (d : PyDict) : List (List Nat) :=
  d.map Prod.snd

/-- `"".join(vals)`: concatenation of the strings in order. -/
def strJoin (vals : List (List Nat)) : List Nat :=
  vals.flatten

/-! ## Strict UTF-8 decoding (`bytes.decode("utf-8")`)

CPython's strict UTF-8 codec rejects continuation bytes in leading
position, overlong encodings, surrogate code points (0xD800–0xDFFF)
and code points above 0x10FFFF.  `utf8Decode` returns the decoded
code-point sequence, or `none` when CPython would raise
`UnicodeDecodeError`. -/

/-- Is `b` a UTF-8 continuation byte (`0x80–0xBF`)? -/
def isCont (b : Nat) : Bool :=
  0x80 ≤ b && b ≤ 0xBF

/-- Strict UTF-8 decoding of a byte list into code points; `none`
models `UnicodeDecodeError`. -/
def utf8Decode : List Nat → Option (List Nat)
  | [] => some []
  | b0 :: rest =>
    if b0 < 0x80 then
      -- one-byte (ASCII)
      (utf8Decode rest).map (fun cs => b0 :: cs)
    else if b0 < 0xC2 then
      -- stray continuation byte or overlong two-byte lead (0xC0/0xC1)
      none
    else if b0 < 0xE0 then
      -- two-byte sequence
      match rest with
      | b1 :: rest1 =>
        if isCont b1 then
          (utf8Decode rest1).map (fun cs => ((b0 - 0xC0) * 64 + (b1 - 0x80)) :: cs)
        else none
      | [] => none
    else if b0 < 0xF0 then
      -- three-byte sequence
      match rest with
      | b1 :: b2 :: rest2 =>
        if (if b0 = 0xE0 then 0xA0 ≤ b1 && b1 ≤ 0xBF
            else if b0 = 0xED then 0x80 ≤ b1 && b1 ≤ 0x9F
            else isCont b1) && isCont b2 then
          (utf8Decode rest2).map
            (fun cs => ((b0 - 0xE0) * 4096 + (b1 - 0x80) * 64 + (b2 - 0x80)) :: cs)
        else none
      | _ => none
    else if b0 < 0xF5 then
      -- four-byte sequence
      match rest with
      | b1 :: b2 :: b3 :: rest3 =>
        if (if b0 = 0xF0 then 0x90 ≤ b1 && b1 ≤ 0xBF
            else if b0 = 0xF4 then 0x80 ≤ b1 && b1 ≤ 0x8F
            else isCont b1) && isCont b2 && isCont b3 then
          (utf8Decode rest3).map
            (fun cs => ((b0 - 0xF0) * 262144 + (b1 - 0x80) * 4096
                          + (b2 - 0x80) * 64 + (b3 - 0x80)) :: cs)
        else none
      | _ => none
    else
      -- 0xF5–0xFF never occur in UTF-8
      none

/-! ## JSON values

The shape of the value produced by `json.loads`; the parser itself is
an external library and is passed as a parameter. -/

/-- A generic JSON tree, the result type of `json.loads`. -/
inductive Json where
  | null : Json
  | bool : Bool → Json
  | num : Int → Json
  | str : List Nat → Json
  | arr : List Json → Json
  | obj : List (List Nat × Json) → Json

/-! ## Server state and `process_request` -/

/-- The mutable fields of `FluoraServer` touched by `process_request`:
`self.json_payload : str`, `self.packet_assemble : dict` and
`self.plant_state : dict` (the decoded plant state). -/
structure FluoraServer where
  json_payload : List Nat
  packet_assemble : PyDict
  plant_state : Json

/-- The server state right after `__init__`: `json_payload = ""`,
`packet_assemble = {}`, `plant_state = {}`. -/
def initServer : FluoraServer :=
  { json_payload := [], packet_assemble := [], plant_state := Json.obj [] }

/-- Exceptions that can escape `process_request`. -/
inductive PyError where
  | indexError : PyError
  | unicodeDecodeError : PyError
deriving DecidableEq

/-- Observable outcome of one `process_request` call: the new server
state, the completed message handed to `json.loads` on a finalizing
call (`self.json_payload` as just assigned), and the payload published
to MQTT when the decode succeeded. -/
structure StepResult where
  state : FluoraServer
  completed : Option (List Nat)
  published : Option (List Nat)

/-- The fragment-assembly body of `process_request` (lines 224–249),
acting on an already-extracted sequence marker `seq = data[3]` and
decoded payload `payload = data[4:].decode("utf-8")`:

```
if udp_packet_seq == 0:
    self.packet_assemble.clear()
    self.packet_assemble[0] = udp_payload
if udp_packet_seq == 12:
    self.packet_assemble[12] = udp_payload
    msg_vals = self.packet_assemble.values()
    self.json_payload = "".join(msg_vals)
    try:
        self.plant_state = json.loads(self.json_payload)
        plant_payload = json.dumps(self.plant_state)
        self._mqtt_publish_message("plant_state", plant_payload)
    except json.JSONDecodeError as error:
        return
    except TypeError as error:
        return
else:
    self.packet_assemble[udp_packet_seq] = udp_payload
```

Note the `else` belongs to the second `if`: a marker-0 fragment is
stored twice under key 0 (idempotent), and a marker-12 fragment takes
only the finalize branch. -/
def assembleStep (dec : List Nat → Option Json) (dumps : Json → List Nat)
    (st : FluoraServer) (seq : Nat) (payload : List Nat) : StepResult :=
  let pa1 : PyDict := if seq = 0 then dictSet [] 0 payload else st.packet_assemble
  if seq = 12 then
    let pa2 := dictSet pa1 12 payload
    let jp := strJoin (dictValues pa2)
    match dec jp with
    | some j =>
        { state := { json_payload := jp, packet_assemble := pa2, plant_state := j },
          completed := some jp,
          published := some (dumps j) }
    | none =>
        { state := { json_payload := jp, packet_assemble := pa2,
                     plant_state := st.plant_state },
          completed := some jp,
          published := none }
  else
    let pa2 := dictSet pa1 seq payload
    { state := { st with packet_assemble := pa2 },
      completed := none,
      published := none }

/-- `FluoraServer.process_request` on one datagram `data = request[0]`
(lines 210–251).  `data[3]` raises `IndexError` when the datagram is
shorter than 4 bytes; `data[4:].decode("utf-8")` raises
`UnicodeDecodeError` on invalid UTF-8; both happen before any state
mutation, so an error result carries the unchanged state. -/
def process_request (dec : List Nat → Option Json) (dumps : Json → List Nat)
    (st : FluoraServer) (data : List Nat) : Except (PyError × FluoraServer) StepResult :=
  match data.get? 3 with
  | none => .error (.indexError, st)
  | some seq =>
    match utf8Decode (data.drop 4) with
    | none => .error (.unicodeDecodeError, st)
    | some payload => .ok (assembleStep dec dumps st seq payload)

/-- Fold `assembleStep` over a list of already-decoded fragments
`(marker, payload)`, returning the final server state. -/
def runFragments (dec : List Nat → Option Json) (dumps : Json → List Nat)
    (st : FluoraServer) (frags : List (Nat × List Nat)) : FluoraServer :=
  frags.foldl (fun s f => (assembleStep dec dumps s f.1 f.2).state) st

/-- A trivial decoder instance (every text malformed), used to
evaluate the assembly logic on concrete inputs. -/
def decNone : List Nat → Option Json := fun _ => none

/-- A trivial serialiser instance, used to evaluate the assembly logic
on concrete inputs. -/
def dumpsNil : Json → List Nat := fun _ => []


/-- A decoder instance that accepts every text as the empty JSON
object, used to evaluate the success path on concrete inputs. -/
def decEmptyObj : List Nat → Option Json := fun _ => some (Json.obj [])

/-- A concrete server state whose decoded plant state has one field
(`"m" ↦ 5`) and whose buffer holds a marker-0 fragment. -/
def stWithField : FluoraServer :=
  { json_payload := [],
    packet_assemble := [(0, [97])],
    plant_state := Json.obj [([109], Json.num 5)] }

/-! ## Unfolding lemmas for `assembleStep` -/

/-- On marker 0 the buffer is cleared and the fragment stored under
key 0 (twice, idempotently, via the dangling `else`); nothing else
changes and nothing is emitted. -/
theorem assembleStep_zero (dec : List Nat → Option Json) (dumps : Json → List Nat)
    (st : FluoraServer) (payload : List Nat) :
    assembleStep dec dumps st 0 payload =
      ⟨⟨st.json_payload, [(0, payload)], st.plant_state⟩, none, none⟩ :=
  rfl

/-- On a marker other than 0 and 12 the fragment is stored under its
key; nothing else changes and nothing is emitted. -/
theorem assembleStep_mid (dec : List Nat → Option Json) (dumps : Json → List Nat)
    (st : FluoraServer) (seq : Nat) (payload : List Nat)
    (h0 : seq ≠ 0) (h12 : seq ≠ 12) :
    assembleStep dec dumps st seq payload =
      ⟨⟨st.json_payload, dictSet st.packet_assemble seq payload, st.plant_state⟩,
       none, none⟩ := by
  simp [assembleStep, h0, h12]

/-- On marker 12 the fragment is stored under key 12, the buffer's
values are joined in insertion order into `json_payload`, and the
result is handed to the decoder. -/
theorem assembleStep_finalize (dec : List Nat → Option Json) (dumps : Json → List Nat)
    (st : FluoraServer) (payload : List Nat) :
    assembleStep dec dumps st 12 payload =
      match dec (strJoin (dictValues (dictSet st.packet_assemble 12 payload))) with
      | some j =>
          ⟨⟨strJoin (dictValues (dictSet st.packet_assemble 12 payload)),
            dictSet st.packet_assemble 12 payload, j⟩,
           some (strJoin (dictValues (dictSet st.packet_assemble 12 payload))),
           some (dumps j)⟩
      | none =>
          ⟨⟨strJoin (dictValues (dictSet st.packet_assemble 12 payload)),
            dictSet st.packet_assemble 12 payload, st.plant_state⟩,
           some (strJoin (dictValues (dictSet st.packet_assemble 12 payload))),
           none⟩ :=
  rfl

/-! ## Claim theorems -/

/-- **C1** (evaluation at the failing input): the code concatenates
the buffered fragments in dictionary *insertion* order, not sorted by
marker.  Delivering the same fragment set `{0 ↦ "a", 1 ↦ "b",
2 ↦ "c", 12 ↦ "d"}` in the order 0,2,1,12 yields the completed
message `"acbd"`, while ascending delivery yields `"abcd"`: the
emitted CompletedMessage is *not* the same for every permutation of
the intermediate fragments, contradicting the sort-by-marker the
design mandates. -/
theorem insertion_order_not_sorted_at_failing_input :
    (runFragments decNone dumpsNil initServer
        [(0, [97]), (2, [99]), (1, [98]), (12, [100])]).json_payload = [97, 99, 98, 100]
    ∧ (runFragments decNone dumpsNil initServer
        [(0, [97]), (1, [98]), (2, [99]), (12, [100])]).json_payload = [97, 98, 99, 100]
    ∧ ([97, 99, 98, 100] : List Nat) ≠ [97, 98, 99, 100] := by
  decide

/-- **C4** (counterexample): after the finalizing marker-12 call the
assembly buffer is *not* empty — it still holds the whole cycle — and
a stale fragment of the finished cycle does contribute to a later
completed message when the later cycle lacks a marker-0 reset. -/
theorem buffer_not_cleared_after_finalize_cex :
    (runFragments decNone dumpsNil initServer [(0, [97]), (12, [98])]).packet_assemble
        = [(0, [97]), (12, [98])]
    ∧ ([(0, [97]), (12, [98])] : PyDict) ≠ []
    ∧ (runFragments decNone dumpsNil initServer
        [(0, [97]), (12, [98]), (12, [99])]).json_payload = [97, 99] := by
  decide

/-- **C4** (amended): a marker-12 call stores the fragment under key
12 and leaves the whole buffer in place; the buffer is cleared only by
the next marker-0 fragment, so fragments of the finished cycle can
contribute to a later cycle. -/
theorem finalize_keeps_buffer (dec : List Nat → Option Json) (dumps : Json → List Nat)
    (st : FluoraServer) (payload : List Nat) :
    (assembleStep dec dumps st 12 payload).state.packet_assemble
      = dictSet st.packet_assemble 12 payload := by
  rw [assembleStep_finalize]
  cases dec (strJoin (dictValues (dictSet st.packet_assemble 12 payload))) <;> rfl

/-- **C5**: processing a marker-0 fragment resets the assembly buffer
to exactly `{0 ↦ payload}` whatever the previous buffer contained, and
changes nothing else, so every fragment buffered before the reset is
discarded and a later finalize can only reflect fragments received at
or after the reset. -/
theorem marker_zero_resets_buffer (dec : List Nat → Option Json) (dumps : Json → List Nat)
    (st : FluoraServer) (payload : List Nat) :
    (assembleStep dec dumps st 0 payload).state
      = ⟨st.json_payload, [(0, payload)], st.plant_state⟩ :=
  rfl

/-- **C8**: a CompletedMessage is handed to the decoder exactly on
marker-12 calls — for *every* buffer state, with no completeness check
on markers 0–11, the emitted message being the insertion-order join of
whatever is buffered plus the new key-12 fragment — and a call with
any other marker emits nothing. -/
theorem finalize_iff_marker_12 (dec : List Nat → Option Json) (dumps : Json → List Nat)
    (st : FluoraServer) (seq : Nat) (payload : List Nat) :
    (assembleStep dec dumps st seq payload).completed
      = if seq = 12 then
          some (strJoin (dictValues (dictSet st.packet_assemble 12 payload)))
        else none := by
  by_cases h12 : seq = 12
  · subst h12
    rw [assembleStep_finalize]
    cases dec (strJoin (dictValues (dictSet st.packet_assemble 12 payload))) <;> simp
  · by_cases h0 : seq = 0
    · subst h0
      rw [assembleStep_zero]
      simp
    · rw [assembleStep_mid dec dumps st seq payload h0 h12]
      simp [h12]

/-- **C9**: a datagram shorter than 4 bytes makes the marker read
`data[3]` an out-of-bounds access: `process_request` raises
`IndexError` before touching any state. -/
theorem short_datagram_index_error (dec : List Nat → Option Json) (dumps : Json → List Nat)
    (st : FluoraServer) (data : List Nat) (h : data.length < 4) :
    process_request dec dumps st data = .error (.indexError, st) := by
  have h3 : data[3]? = none := List.getElem?_eq_none (by omega)
  simp [process_request, h3]

/-- **C9** witness: the empty datagram is shorter than 4 bytes and
does raise `IndexError`. -/
theorem short_datagram_index_error_witness :
    ([] : List Nat).length < 4
    ∧ process_request decNone dumpsNil initServer [] = .error (.indexError, initServer) :=
  ⟨by decide, short_datagram_index_error decNone dumpsNil initServer [] (by decide)⟩

/-- Projection of `assembleStep_finalize`: on a marker-12 call
`json_payload` is set to the insertion-order join whether or not the
decode succeeds. -/
theorem assembleStep_finalize_json_payload (dec : List Nat → Option Json)
    (dumps : Json → List Nat) (st : FluoraServer) (payload : List Nat) :
    (assembleStep dec dumps st 12 payload).state.json_payload
      = strJoin (dictValues (dictSet st.packet_assemble 12 payload)) := by
  rw [assembleStep_finalize]
  cases dec (strJoin (dictValues (dictSet st.packet_assemble 12 payload))) <;> rfl

/-- **C2** (counterexample): with the previous plant state holding the
field `"m" ↦ 5` and a successfully decoded document that omits that
path (the empty object), the stored plant state after the cycle is the
decoded tree itself — the old field is gone, it did not retain its
previous value: the state *is* wholesale-replaced by the decoded
tree. -/
theorem wholesale_replacement_cex :
    (assembleStep decEmptyObj dumpsNil stWithField 12 [98]).state.plant_state = Json.obj []
    ∧ Json.obj [] ≠ stWithField.plant_state := by
  constructor
  · rfl
  · simp [stWithField]

/-- **C2** (amended): after every successful decode the stored plant
state is wholesale-replaced by the decoded tree — `plant_state`
becomes exactly the decoder's result, with no field-by-field merge, so
a field absent from the document does not retain its previous
value. -/
theorem successful_decode_wholesale_replaces (dec : List Nat → Option Json)
    (dumps : Json → List Nat) (st : FluoraServer) (payload : List Nat) (j : Json)
    (h : dec (strJoin (dictValues (dictSet st.packet_assemble 12 payload))) = some j) :
    (assembleStep dec dumps st 12 payload).state.plant_state = j := by
  rw [assembleStep_finalize, h]

/-- **C2** witness: a concrete successful decode at marker 12 replaces
the plant state with the decoded empty object. -/
theorem successful_decode_wholesale_replaces_witness :
    decEmptyObj (strJoin (dictValues (dictSet initServer.packet_assemble 12 [97])))
        = some (Json.obj [])
    ∧ (assembleStep decEmptyObj dumpsNil initServer 12 [97]).state.plant_state
        = Json.obj [] :=
  ⟨rfl, successful_decode_wholesale_replaces decEmptyObj dumpsNil initServer [97]
    (Json.obj []) rfl⟩

/-- **C3** (counterexample): a datagram whose payload bytes are not
valid UTF-8 makes `process_request` raise `UnicodeDecodeError` — the
per-fragment `decode("utf-8")` on line 222 sits outside the
`try`/`except`, so the error escapes the per-datagram handler instead
of being recovered locally. -/
theorem invalid_utf8_escapes_cex :
    process_request decNone dumpsNil initServer [0, 0, 0, 12, 255]
      = .error (.unicodeDecodeError, initServer) :=
  rfl

/-- **C3** (amended): bytes that are not valid UTF-8 are rejected
during the per-fragment decode, before assembly; the resulting
`UnicodeDecodeError` is not caught inside the per-datagram handler and
escapes `process_request`, though the server state (and with it the
canonical plant state) is still unchanged at that point. -/
theorem invalid_utf8_escapes_handler (dec : List Nat → Option Json)
    (dumps : Json → List Nat) (st : FluoraServer) (data : List Nat) (seq : Nat)
    (hseq : data[3]? = some seq)
    (hbad : utf8Decode (data.drop 4) = none) :
    process_request dec dumps st data = .error (.unicodeDecodeError, st) := by
  simp [process_request, hseq, hbad]

/-- **C3** witness: the concrete invalid-UTF-8 datagram
`[0,0,0,12,255]` escapes the handler with the state unchanged. -/
theorem invalid_utf8_escapes_handler_witness :
    ([0, 0, 0, 12, 255] : List Nat)[3]? = some 12
    ∧ utf8Decode (([0, 0, 0, 12, 255] : List Nat).drop 4) = none
    ∧ process_request decNone dumpsNil initServer [0, 0, 0, 12, 255]
        = .error (.unicodeDecodeError, initServer) :=
  ⟨by decide, by decide,
    invalid_utf8_escapes_handler decNone dumpsNil initServer [0, 0, 0, 12, 255] 12
      (by decide) (by decide)⟩

/-- **C6**: when the joined text of a finalized cycle fails to decode
as JSON, the stored plant state is exactly the one from before the
attempt and nothing is published — the failure is reported (no
publish, only a log) and the canonical record is untouched. -/
theorem decode_failure_keeps_plant_state (dec : List Nat → Option Json)
    (dumps : Json → List Nat) (st : FluoraServer) (payload : List Nat)
    (h : dec (strJoin (dictValues (dictSet st.packet_assemble 12 payload))) = none) :
    (assembleStep dec dumps st 12 payload).state.plant_state = st.plant_state
    ∧ (assembleStep dec dumps st 12 payload).published = none := by
  rw [assembleStep_finalize, h]
  exact ⟨rfl, rfl⟩

/-- **C6** witness: a concrete failing decode at marker 12 leaves the
initial plant state in place and publishes nothing. -/
theorem decode_failure_keeps_plant_state_witness :
    decNone (strJoin (dictValues (dictSet initServer.packet_assemble 12 [97]))) = none
    ∧ ((assembleStep decNone dumpsNil initServer 12 [97]).state.plant_state
          = initServer.plant_state
       ∧ (assembleStep decNone dumpsNil initServer 12 [97]).published = none) :=
  ⟨rfl, decode_failure_keeps_plant_state decNone dumpsNil initServer [97] rfl⟩

/-- **C7**: processing fragments with markers 0,1,…,12 in strictly
ascending order yields, on the marker-12 call, a completed message
(`json_payload`) equal to the exact concatenation of the thirteen
payloads in that order. -/
theorem ascending_delivery_concatenates (dec : List Nat → Option Json)
    (dumps : Json → List Nat) (st : FluoraServer)
    (p0 p1 p2 p3 p4 p5 p6 p7 p8 p9 p10 p11 p12 : List Nat) :
    (runFragments dec dumps st
        [(0, p0), (1, p1), (2, p2), (3, p3), (4, p4), (5, p5), (6, p6), (7, p7),
         (8, p8), (9, p9), (10, p10), (11, p11), (12, p12)]).json_payload
      = p0 ++ p1 ++ p2 ++ p3 ++ p4 ++ p5 ++ p6 ++ p7 ++ p8 ++ p9 ++ p10 ++ p11 ++ p12 := by
  simp [runFragments, assembleStep_zero, assembleStep_mid,
    assembleStep_finalize_json_payload, dictSet, dictValues, strJoin]

/-- **C10**: a failing decode at marker 12 is not atomic over the
server state: `json_payload` has already been overwritten with the
(corrupt) insertion-order concatenation, the assembly buffer still
holds all of the cycle's fragments (key 12 included), and only the
decoded plant-state record itself is left unchanged. -/
theorem decode_failure_partial_mutation (dec : List Nat → Option Json)
    (dumps : Json → List Nat) (st : FluoraServer) (payload : List Nat)
    (h : dec (strJoin (dictValues (dictSet st.packet_assemble 12 payload))) = none) :
    (assembleStep dec dumps st 12 payload).state.json_payload
        = strJoin (dictValues (dictSet st.packet_assemble 12 payload))
    ∧ (assembleStep dec dumps st 12 payload).state.packet_assemble
        = dictSet st.packet_assemble 12 payload
    ∧ (assembleStep dec dumps st 12 payload).state.plant_state = st.plant_state := by
  rw [assembleStep_finalize, h]
  exact ⟨rfl, rfl, rfl⟩

/-- **C10** witness: a concrete failing decode with a buffered
marker-0 fragment keeps the buffer, overwrites `json_payload` with the
corrupt join, and leaves the plant state alone. -/
theorem decode_failure_partial_mutation_witness :
    decNone (strJoin (dictValues (dictSet stWithField.packet_assemble 12 [98]))) = none
    ∧ ((assembleStep decNone dumpsNil stWithField 12 [98]).state.json_payload
          = strJoin (dictValues (dictSet stWithField.packet_assemble 12 [98]))
       ∧ (assembleStep decNone dumpsNil stWithField 12 [98]).state.packet_assemble
          = dictSet stWithField.packet_assemble 12 [98]
       ∧ (assembleStep decNone dumpsNil stWithField 12 [98]).state.plant_state
          = stWithField.plant_state) :=
  ⟨rfl, decode_failure_partial_mutation decNone dumpsNil stWithField [98] rfl⟩

end Fluora
